import Mathlib

/-!
Verification of the stage-pipeline scripts of `langchain-init`.

The repository's scripts wire LLM calls (external oracle, modelled as a
function `String → String`) together with ad-hoc string parsing and a
small amount of loop/routing logic.  We embed the parsing and routing
logic faithfully, at the level of Python string operations, and model
the external collaborators (the LLM, Python `eval`, `random.randint`)
as explicit function parameters.

Python string methods are embedded as structural functions over
`List Char` (the `PyStr` namespace), so that every definition is
executable by kernel reduction.
-/

namespace PyStr

/-- Is the first list a prefix of the second?  (Helper for `startswith`
and substring containment.) -/
def isPre : List Char → List Char → Bool
  | [], _ => true
  | _ :: _, [] => false
  | n :: ns, h :: hs => n = h && isPre ns hs

/-- Python `needle in hay` (substring containment). -/
def containsSub (needle : List Char) : List Char → Bool
  | [] => isPre needle []
  | h :: hs => isPre needle (h :: hs) || containsSub needle hs

/-- Python `s.split(sep)` for a one-character separator: split at every
occurrence, keeping empty pieces. -/
def splitOnChar (sep : Char) : List Char → List (List Char)
  | [] => [[]]
  | c :: rest =>
    if c = sep then [] :: splitOnChar sep rest
    else
      match splitOnChar sep rest with
      | [] => [[c]]
      | h :: t => (c :: h) :: t

/-- Python `s.split()` (no argument): split on whitespace runs,
dropping empty pieces.  `acc` holds the reversed current token. -/
def splitWsAux : List Char → List Char → List (List Char)
  | acc, [] => if acc = [] then [] else [acc.reverse]
  | acc, c :: rest =>
    if c.isWhitespace then
      if acc = [] then splitWsAux [] rest
      else acc.reverse :: splitWsAux [] rest
    else splitWsAux (c :: acc) rest

def splitWs (l : List Char) : List (List Char) := splitWsAux [] l

/-- Python `s.strip()`: drop whitespace from both ends. -/
def stripWs (l : List Char) : List Char :=
  ((l.dropWhile Char.isWhitespace).reverse.dropWhile Char.isWhitespace).reverse

/-- Python `s.strip(chars)`: drop the given characters from both ends. -/
def stripChars (cs : List Char) (l : List Char) : List Char :=
  ((l.dropWhile (cs.contains ·)).reverse.dropWhile (cs.contains ·)).reverse

/-- ASCII lower-casing, as applied by Python `str.lower` on the ASCII
strings handled by these scripts. -/
def lowerChar (c : Char) : Char :=
  if 'A' ≤ c ∧ c ≤ 'Z' then Char.ofNat (c.toNat + 32) else c

def lower (l : List Char) : List Char := l.map lowerChar

/-- Python `s.split(sep, 1)[1]`: everything after the first occurrence
of `sep` (empty if `sep` is absent). -/
def afterFirst (sep : Char) (l : List Char) : List Char :=
  (l.dropWhile (fun c => ¬ c = sep)).drop 1

/-- The decimal-digit characters Python `int()` accepts (Unicode
category Nd; modelled by the ASCII digits, the only decimal digits the
scripts and their prompts produce). -/
def decimalDigit (c : Char) : Bool := '0' ≤ c && c ≤ '9'

/-- Digit characters that Python `str.isdigit` accepts but `int()`
rejects with a `ValueError` (Unicode `Numeric_Type=Digit` without
`Numeric_Type=Decimal`): the Latin-1 superscripts and the
super- and subscript digit block, a representative subset of the full
Unicode class. -/
def digitNonDecimal (c : Char) : Bool :=
  c = '¹' || c = '²' || c = '³' ||
  c = '⁰' || ('⁴' ≤ c && c ≤ '⁹') ||
  ('₀' ≤ c && c ≤ '₉')

/-- Python `c.isdigit()` on a single character: decimal digits and the
non-decimal digit characters. -/
def isDigitChar (c : Char) : Bool := decimalDigit c || digitNonDecimal c

/-- Python `str.isdigit` on a token: nonempty and all characters
digits — including non-decimal digit characters such as `'²'`, on
which a subsequent `int()` raises. -/
def isDigits (l : List Char) : Bool := ¬ l = [] && l.all isDigitChar

/-- All characters decimal: exactly the digit sequences `int()` parses
without raising. -/
def isDecimalDigits (l : List Char) : Bool := ¬ l = [] && l.all decimalDigit

/-- Python `int(s)` on a token of digits. -/
def digitsToNat (l : List Char) : Nat :=
  l.foldl (fun acc c => acc * 10 + (c.toNat - '0'.toNat)) 0

/-- Python `int(s)` on an arbitrary string: optional surrounding
whitespace, optional sign, decimal digits; `none` models the
`ValueError` — also raised on digit-only characters such as `'²'`. -/
def pyIntOfChars : List Char → Option Int := fun l =>
  match stripWs l with
  | '-' :: rest => if isDecimalDigits rest then some (-(digitsToNat rest : Int)) else none
  | '+' :: rest => if isDecimalDigits rest then some (digitsToNat rest) else none
  | t => if isDecimalDigits t then some (digitsToNat t) else none

/-- Python `s.replace(pat, rep)` for a one-character pattern. -/
def replaceChar (pat : Char) (rep : List Char) (l : List Char) : List Char :=
  l.foldr (fun c acc => (if c = pat then rep else [c]) ++ acc) []

end PyStr

deriving instance DecidableEq for Except

/-! String-level wrappers for the Python methods the scripts use. -/

/-- Python `s.split('\n')`. -/
def pyLines (s : String) : List String :=
  (PyStr.splitOnChar '\n' s.data).map String.mk

/-- Python `s.startswith(p)`. -/
def pyStartsWith (p s : String) : Bool := PyStr.isPre p.data s.data

/-- Python `needle in hay`. -/
def pyContains (needle hay : String) : Bool := PyStr.containsSub needle.data hay.data

/-- Python `s.strip()`. -/
def pyStrip (s : String) : String := String.mk (PyStr.stripWs s.data)

/-- Python `s.lower()`. -/
def pyLower (s : String) : String := String.mk (PyStr.lower s.data)

/-- Python `s.split()`. -/
def pySplitWs (s : String) : List String := (PyStr.splitWs s.data).map String.mk

/-- Python `s.split(sep)[1]` for a one-character separator; the scripts
only evaluate it on lines guarded to contain the separator. -/
def pyIndex1Split (sep : Char) (s : String) : String :=
  String.mk (((PyStr.splitOnChar sep s.data).drop 1).headD [])

/-- Python `str.isdigit` (accepting non-decimal digit characters). -/
def pyIsDigit (s : String) : Bool := PyStr.isDigits s.data

/-- Python `int(s)` on a decimal-digit token. -/
def pyDigitsToNat (s : String) : Nat := PyStr.digitsToNat s.data

/-- Python `int(t)` on a token that passed the `isdigit` filter: parses
when all characters are decimal digits, raises `ValueError` on a
non-decimal digit token such as `"²"`. -/
def pyIntToken (t : String) : Except String Nat :=
  if PyStr.isDecimalDigits t.data then Except.ok (PyStr.digitsToNat t.data)
  else Except.error ("invalid literal for int() with base 10: " ++ t)

/-- Python `[int(t) for t in line.split() if t.isdigit()]`, the number
extraction idiom of `code_reviewer.py` and `research_assistant.py`:
the `isdigit` filter also passes non-decimal digit tokens, on which
`int()` raises — the comprehension is fallible. -/
def digitTokens (line : String) : Except String (List Nat) :=
  ((pySplitWs line).filter pyIsDigit).mapM pyIntToken

/-- Python `any(char.isdigit() for char in line)`. -/
def pyAnyDigit (line : String) : Bool := line.data.any PyStr.isDigitChar

/-- Python dict assignment `d[k] = v` on an association list: overwrite
the existing binding or append a new one. -/
def dictInsert {α : Type} (k : String) (v : α) : List (String × α) → List (String × α)
  | [] => [(k, v)]
  | (k', v') :: rest => if k' = k then (k, v) :: rest else (k', v') :: dictInsert k v rest

/-- Python `s.replace(pat, rep)` (general substring replacement,
left-to-right, non-overlapping; the scripts never call it with an empty
pattern). -/
def PyStr.replaceSub (pat rep : List Char) : List Char → List Char
  | [] => []
  | c :: rest =>
    if PyStr.isPre pat (c :: rest) = true then
      rep ++ PyStr.replaceSub pat rep (List.drop (pat.length - 1) rest)
    else c :: PyStr.replaceSub pat rep rest
termination_by l => l.length
decreasing_by
  all_goals simp [List.length_drop]
  omega

/-- Python `s.replace(pat, rep)` at the `String` level. -/
def pyReplace (pat rep s : String) : String :=
  String.mk (PyStr.replaceSub pat.data rep.data s.data)

namespace ConditionalWorkflow

/-- The state schema `WorkflowState` of `conditional_workflow.py`
(`results` is a string-valued dict there). -/
structure WorkflowState where
  input_text : String
  content_type : String
  sentiment : String
  complexity : String
  processing_path : List String
  results : List (String × String)
  final_output : String
deriving DecidableEq

/-- The analysis prompt built by `analyze_content`. -/
def analysis_prompt (text : String) : String :=
  "\n    Analyze the following text and provide:\n    1. Content Type: (question, request, complaint, compliment, information, other)\n    2. Sentiment: (positive, negative, neutral)\n    3. Complexity: (simple, moderate, complex)\n    \n    Text: "
    ++ text ++
    "\n    \n    Respond in this exact format:\n    Content Type: [type]\n    Sentiment: [sentiment]  \n    Complexity: [complexity]\n    "

/-- The parsing loop of `analyze_content` (lines 44-55): defaults
`("other", "neutral", "moderate")`, overwritten by the last line that
starts with the matching prefix, taking `line.split(":")[1].strip().lower()`. -/
def parseContentAnalysis (analysis : String) : String × String × String :=
  (pyLines analysis).foldl
    (fun acc line =>
      if pyStartsWith "Content Type:" line then
        (pyLower (pyStrip (pyIndex1Split ':' line)), acc.2.1, acc.2.2)
      else if pyStartsWith "Sentiment:" line then
        (acc.1, pyLower (pyStrip (pyIndex1Split ':' line)), acc.2.2)
      else if pyStartsWith "Complexity:" line then
        (acc.1, acc.2.1, pyLower (pyStrip (pyIndex1Split ':' line)))
      else acc)
    ("other", "neutral", "moderate")

/-- `analyze_content`, with the LLM as an explicit oracle. -/
def analyze_content (llm : String → String) (s : WorkflowState) : WorkflowState :=
  let analysis := llm (analysis_prompt s.input_text)
  let p := parseContentAnalysis analysis
  { s with content_type := p.1, sentiment := p.2.1, complexity := p.2.2,
           processing_path := ["analysis"] }

/-- The `routing_map` literal of `route_by_content_type`. -/
def routing_map : List (String × String) :=
  [("question", "handle_question"), ("request", "handle_request"),
   ("complaint", "handle_complaint"), ("compliment", "handle_compliment"),
   ("information", "handle_information"), ("other", "handle_other")]

/-- `route_by_content_type`: `routing_map.get(content_type, "handle_other")`. -/
def route_by_content_type (s : WorkflowState) : String :=
  (routing_map.lookup s.content_type).getD "handle_other"

end ConditionalWorkflow

namespace ChatWithTools

/-- The state schema `ChatState` of `chat_with_tools.py`; `messages`
are (role, content) pairs, `tool_results` a string-valued dict. -/
structure ChatState where
  messages : List (String × String)
  available_tools : List String
  tool_results : List (String × String)
  conversation_context : String
  needs_tool : Bool
  selected_tool : String
  user_input : String
  response : String
deriving DecidableEq

/-- The keys of the `AVAILABLE_TOOLS` registry. -/
def toolKeys : List String :=
  ["calculator", "random_number", "datetime", "word_count", "reverse_text"]

/-- `expression.replace('^', '**')` as applied by `calculator_tool`. -/
def caretToPow (expression : String) : String :=
  String.mk (PyStr.replaceChar '^' ['*', '*'] expression.data)

/-- `calculator_tool`: the Python `eval` builtin is an external
collaborator, modelled as an oracle returning either the formatted
value or the stringified exception; the `try/except` block catches the
failure and folds it into the returned text. -/
def calculator_tool (pyEval : String → Except String String) (expression : String) : String :=
  match pyEval (caretToPow expression) with
  | Except.ok result => "Calculator result: " ++ expression ++ " = " ++ result
  | Except.error e => "Calculator error: " ++ e

/-- A dynamically-typed Python argument as received by
`random_number_tool` (the annotations `min_val: int` are not enforced;
the spec's non-numeric-bounds scenario passes strings). -/
inductive PyVal where
  | int (n : Int)
  | str (s : String)
deriving DecidableEq

/-- Python `int(v)`: identity on ints, parse on strings, `none` models
the `ValueError`. -/
def pyInt : PyVal → Option Int
  | PyVal.int n => some n
  | PyVal.str s => PyStr.pyIntOfChars s.data

/-- `random_number_tool`: `int()` conversion of both bounds and
`random.randint` (external, modelled as an oracle that may raise, e.g.
on an empty range) inside one `try/except` returning error text. -/
def random_number_tool (randint : Int → Int → Except String Int)
    (min_val max_val : PyVal) : String :=
  match pyInt min_val with
  | none => "Random number error: " ++ "invalid literal for int() with base 10"
  | some a =>
    match pyInt max_val with
    | none => "Random number error: " ++ "invalid literal for int() with base 10"
    | some b =>
      match randint a b with
      | Except.ok number =>
          "Random number between " ++ toString a ++ " and " ++ toString b ++ ": " ++ toString number
      | Except.error e => "Random number error: " ++ e

/-- `datetime_tool`, with the current time an external input. -/
def datetime_tool (nowStr : String) : String := "Current date and time: " ++ nowStr

/-- `word_count_tool`. -/
def word_count_tool (text : String) : String :=
  "Text analysis - Words: " ++ toString (pySplitWs text).length
    ++ ", Characters: " ++ toString text.data.length

/-- `reverse_text_tool`. -/
def reverse_text_tool (text : String) : String :=
  "Reversed text: " ++ String.mk text.data.reverse

/-- The tool-analysis prompt of `analyze_user_input`. -/
def tool_analysis_prompt (user_input : String) : String :=
  "\n    Analyze this user message to determine if any tools should be used:\n    \n    User message: "
    ++ user_input ++
    "\n    \n    Available tools:\n    - calculator: For math calculations\n    - random_number: For generating random numbers\n    - datetime: For current date/time\n    - word_count: For counting words in text\n    - reverse_text: For reversing text\n    \n    Respond with:\n    NEEDS_TOOL: yes/no\n    TOOL_NAME: [tool name if needed, or \"none\"]\n    REASONING: [brief explanation]\n    \n    If no tool is needed, just respond with conversational chat.\n    "

/-- The parsing loop of `analyze_user_input` (lines 100-110): defaults
`needs_tool = False`, `selected_tool = "none"`; a `NEEDS_TOOL:` line
sets the flag from `"yes" in line.lower()`, a `TOOL_NAME:` line sets
the tool only when it names a registered tool. -/
def parseToolAnalysis (analysis : String) : Bool × String :=
  (pyLines analysis).foldl
    (fun acc line =>
      if pyStartsWith "NEEDS_TOOL:" line then
        (pyContains "yes" (pyLower line), acc.2)
      else if pyStartsWith "TOOL_NAME:" line then
        let tool_name := pyLower (pyStrip (pyIndex1Split ':' line))
        if tool_name ∈ toolKeys then (acc.1, tool_name) else acc
      else acc)
    (false, "none")

/-- `analyze_user_input`, LLM as oracle. -/
def analyze_user_input (llm : String → String) (s : ChatState) : ChatState :=
  let analysis := llm (tool_analysis_prompt s.user_input)
  let p := parseToolAnalysis analysis
  { s with needs_tool := p.1, selected_tool := p.2 }

/-- The expression-extraction prompt of the calculator branch of
`execute_tool`. -/
def calc_extract_prompt (user_input : String) : String :=
  "\n        Extract the mathematical expression from this message: " ++ user_input ++
    "\n        \n        Respond with just the mathematical expression.\n        "

/-- The text-extraction prompt of the word-count branch. -/
def wc_extract_prompt (user_input : String) : String :=
  "\n        Extract the text that should be word-counted from this message: " ++ user_input ++
    "\n        \n        Message: " ++ user_input ++
    "\n        \n        Respond with just the text to be counted.\n        "

/-- The text-extraction prompt of the reverse-text branch. -/
def rev_extract_prompt (user_input : String) : String :=
  "\n        Extract the text that should be reversed from this message: " ++ user_input ++
    "\n        \n        Message: " ++ user_input ++
    "\n        \n        Respond with just the text to be reversed.\n        "

/-- `execute_tool` (lines 119-197), external collaborators (LLM,
`eval`, `random.randint`) as oracles.  The random-number branch mirrors
the `"between"` range extraction of lines 146-158. -/
def execute_tool (llm : String → String) (pyEval : String → Except String String)
    (randint : Int → Int → Except String Int) (nowStr : String) (s : ChatState) : ChatState :=
  if s.selected_tool ∉ toolKeys then
    { s with tool_results :=
        dictInsert "error" ("Tool " ++ s.selected_tool ++ " not found") s.tool_results }
  else
    let result :=
      if s.selected_tool = "calculator" then
        let expression := pyStrip (llm (calc_extract_prompt s.user_input))
        calculator_tool pyEval expression
      else if s.selected_tool = "random_number" then
        if pyContains "between" (pyLower s.user_input) then
          match digitTokens s.user_input with
          | Except.ok (a :: b :: _) => random_number_tool randint (PyVal.int a) (PyVal.int b)
          | Except.ok _ => random_number_tool randint (PyVal.int 1) (PyVal.int 100)
          | Except.error _ => random_number_tool randint (PyVal.int 1) (PyVal.int 100)
        else random_number_tool randint (PyVal.int 1) (PyVal.int 100)
      else if s.selected_tool = "datetime" then datetime_tool nowStr
      else if s.selected_tool = "word_count" then
        word_count_tool (pyStrip (llm (wc_extract_prompt s.user_input)))
      else reverse_text_tool (pyStrip (llm (rev_extract_prompt s.user_input)))
    { s with tool_results := dictInsert s.selected_tool result s.tool_results }

/-- Model of the external Python `eval` builtin for the arithmetic
scenarios of the spec: nonnegative integer literals combined with `+`
and `*` (after discarding whitespace); anything else raises, i.e.
returns `Except.error`. -/
def pyEvalFactor (l : List Char) : Option Int :=
  if PyStr.isDecimalDigits l then some ((PyStr.digitsToNat l : Nat) : Int) else none

def pyEvalTerm (l : List Char) : Option Int :=
  ((PyStr.splitOnChar '*' l).mapM pyEvalFactor).map (fun vs => vs.foldl (· * ·) 1)

def pyEvalArith (expression : String) : Except String Int :=
  let noWs := expression.data.filter (fun c => ¬ c.isWhitespace)
  match (PyStr.splitOnChar '+' noWs).mapM pyEvalTerm with
  | some vs => Except.ok (vs.foldl (· + ·) 0)
  | none => Except.error ("invalid syntax: " ++ expression)

/-- `pyEvalArith` packaged the way `calculator_tool`'s f-string uses the
evaluated value: stringified. -/
def pyEvalArithS (expression : String) : Except String String :=
  (pyEvalArith expression).map toString

end ChatWithTools

namespace CodeReviewer

/-- A `reviews[stage]` entry of `code_reviewer.py`:
`{"review": ..., "score": ..., "stage": ...}`. -/
structure ReviewEntry where
  review : String
  score : Nat
  stage : String
deriving DecidableEq

/-- The state schema `CodeReviewState`. -/
structure CodeReviewState where
  code : String
  language : String
  review_stages : List String
  current_stage : Nat
  reviews : List (String × ReviewEntry)
  overall_score : Nat
  final_summary : String
deriving DecidableEq

/-- The syntax-review prompt built by ` review_syntax`. -/
def syntax_prompt (language code : String) : String :=
  "\n    Review this " ++ language ++
    " code for syntax issues:\n    \n    Code:\n    " ++ code ++
    "\n    \n    Analyze for:\n    1. Syntax errors\n    2. Missing imports or dependencies\n    3. Proper use of language constructs\n    4. Basic structural issues\n    \n    Provide:\n    - Issues found (if any)\n    - Severity (High/Medium/Low)\n    - Suggestions for fixes\n    - Score out of 10\n    \n    Format:\n    ISSUES: [List issues or \"None found\"]\n    SEVERITY: [Overall severity]\n    SUGGESTIONS: [Improvement suggestions]\n    SCORE: [Number out of 10]\n    "

/-- The score-parsing loop of ` review_syntax` (lines 86-92): default 8;
each `SCORE:` line containing a digit character re-sets the score to
`min(10, max(0, numbers[0]))` over its parsed digit tokens.  The
number-extraction comprehension raises `ValueError` on a non-decimal
digit token (e.g. `"²"`), aborting the loop — the parse is fallible. -/
def parseReviewScore (review : String) : Except String Nat :=
  (pyLines review).foldlM
    (fun score line =>
      if pyStartsWith "SCORE:" line && pyAnyDigit line then
        match digitTokens line with
        | Except.error e => Except.error e
        | Except.ok [] => Except.ok score
        | Except.ok (n :: _) => Except.ok (min 10 (max 0 n))
      else Except.ok score)
    8

/-- ` review_syntax`, LLM as oracle: stores
`{"review": review, "score": score, "stage": "syntax"}` under the
`"syntax"` key.  The stage has no `try/except`, so a `ValueError` from
the score parse propagates to the caller: `Except.error`. -/
def review_syntax (llm : String → String) (s : CodeReviewState) :
    Except String CodeReviewState :=
  let review := llm (syntax_prompt s.language s.code)
  (parseReviewScore review).map fun score =>
    { s with reviews :=
        dictInsert "syntax" { review := review, score := score, stage := "syntax" } s.reviews }

end CodeReviewer

namespace ResearchAssistant

/-- A `findings` entry of `research_assistant.py`:
`{"question": ..., "finding": ..., "index": ...}`. -/
structure Finding where
  question : String
  finding : String
  index : Nat
deriving DecidableEq

/-- The state schema `ResearchState`. -/
structure ResearchState where
  research_topic : String
  research_questions : List String
  findings : List Finding
  current_question_index : Nat
  summary : String
  recommendations : String
  confidence_score : Nat
deriving DecidableEq

/-- The question-generation prompt of `generate_research_questions`. -/
def questions_prompt (topic : String) : String :=
  "\n    You are a research assistant. For the topic \"" ++ topic ++
    "\", generate 5 specific, focused research questions that would help create a comprehensive understanding of the subject.\n    \n    Make the questions:\n    1. Specific and actionable\n    2. Cover different aspects of the topic\n    3. Progressive in complexity\n    \n    Format your response as a numbered list:\n    1. [Question 1]\n    2. [Question 2]\n    ...\n    "

/-- The question-parsing loop of `generate_research_questions`
(lines 45-55): keep nonempty stripped lines that start with a digit or
`-`; take the text after the first `.` (or strip `- ` characters);
keep the question when nonempty. -/
def parseQuestions (response : String) : List String :=
  (pyLines response).foldl
    (fun acc rawLine =>
      let line := pyStrip rawLine
      if ¬ line = "" ∧ (PyStr.isDigitChar (line.data.headD ' ') ∨ pyStartsWith "-" line) then
        let question :=
          if pyContains "." line then
            pyStrip (String.mk (PyStr.afterFirst '.' line.data))
          else pyStrip (String.mk (PyStr.stripChars ['-', ' '] line.data))
        if ¬ question = "" then acc ++ [question] else acc
      else acc)
    []

/-- `generate_research_questions`: parses the questions, truncates to 5
(`questions[:5]`), resets the cursor and the findings. -/
def generate_research_questions (llm : String → String) (s : ResearchState) : ResearchState :=
  let response := llm (questions_prompt s.research_topic)
  let questions := parseQuestions response
  { s with research_questions := questions.take 5,
           current_question_index := 0,
           findings := [] }

/-- The per-question research prompt of `research_question`. -/
def research_prompt (topic current_question : String) : String :=
  "\n    Research Topic: " ++ topic ++
    "\n    \n    Specific Research Question: " ++ current_question ++
    "\n    \n    Provide comprehensive information about this specific question. Include:\n    1. Key facts and information\n    2. Different perspectives if applicable\n    3. Important details and context\n    4. Any relevant examples or case studies\n    \n    Be thorough and accurate in your research response.\n    "

/-- `research_question` (lines 67-102): early-returns when the cursor
is past the question list, otherwise researches the current question
and appends a finding. -/
def research_question (llm : String → String) (s : ResearchState) : ResearchState :=
  if h : s.research_questions.length ≤ s.current_question_index then s
  else
    let current_question := s.research_questions.get ⟨s.current_question_index, by omega⟩
    let finding := llm (research_prompt s.research_topic current_question)
    { s with findings := s.findings ++
        [{ question := current_question, finding := finding,
           index := s.current_question_index }] }

/-- `advance_research`: `current_question_index += 1`. -/
def advance_research (s : ResearchState) : ResearchState :=
  { s with current_question_index := s.current_question_index + 1 }

/-- The findings compilation of `synthesize_findings`. -/
def compileFindings (findings : List Finding) : String :=
  findings.enum.foldl
    (fun acc p =>
      acc ++ "Research Question " ++ toString (p.1 + 1) ++ ": " ++ p.2.question ++
        "\n" ++ "Findings: " ++ p.2.finding ++ "\n\n")
    ""

/-- The synthesis prompt of `synthesize_findings`. -/
def synthesis_prompt (topic allFindings : String) : String :=
  "\n    Research Topic: " ++ topic ++
    "\n    \n    All Research Findings:\n    " ++ allFindings ++
    "\n    \n    Based on all the research findings above, create:\n    \n    1. COMPREHENSIVE SUMMARY: A well-structured summary that integrates all findings\n    2. KEY INSIGHTS: The most important insights discovered\n    3. CONNECTIONS: How different aspects of the research connect to each other\n    4. IMPLICATIONS: What this research means or implies\n    \n    Format your response with clear sections.\n    "

/-- `synthesize_findings`. -/
def synthesize_findings (llm : String → String) (s : ResearchState) : ResearchState :=
  { s with summary := llm (synthesis_prompt s.research_topic (compileFindings s.findings)) }

/-- The recommendations prompt of `generate_recommendations`. -/
def recommendations_prompt (topic summary : String) : String :=
  "\n    Research Topic: " ++ topic ++
    "\n    \n    Research Summary:\n    " ++ summary ++
    "\n    \n    Based on this research, provide:\n    \n    1. ACTIONABLE RECOMMENDATIONS: 3-5 specific actions someone could take\n    2. NEXT STEPS: What should be researched or explored further\n    3. POTENTIAL CHALLENGES: What obstacles or challenges to be aware of\n    4. CONFIDENCE ASSESSMENT: How confident are you in these findings (1-10 scale)\n    \n    Be practical and specific in your recommendations.\n    "

/-- The confidence-extraction loop of `generate_recommendations`
(lines 169-175): default 7; each line containing `confidence`
(case-insensitively) and a digit character re-sets it to
`min(10, max(1, numbers[0]))`.  As in the review-score parse, the
`int()` comprehension raises on a non-decimal digit token. -/
def parseConfidence (recommendations : String) : Except String Nat :=
  (pyLines recommendations).foldlM
    (fun confidence line =>
      if pyContains "confidence" (pyLower line) && pyAnyDigit line then
        match digitTokens line with
        | Except.error e => Except.error e
        | Except.ok [] => Except.ok confidence
        | Except.ok (n :: _) => Except.ok (min 10 (max 1 n))
      else Except.ok confidence)
    7

/-- `generate_recommendations`: no `try/except`, so a `ValueError` from
the confidence parse propagates to the caller. -/
def generate_recommendations (llm : String → String) (s : ResearchState) :
    Except String ResearchState :=
  let recommendations := llm (recommendations_prompt s.research_topic s.summary)
  (parseConfidence recommendations).map fun confidence =>
    { s with recommendations := recommendations, confidence_score := confidence }

/-- `should_continue_research`. -/
def should_continue_research (s : ResearchState) : String :=
  if s.current_question_index < s.research_questions.length then "research_more"
  else "synthesize"

/-- One pass around the `research_question -> advance` cycle of the
graph built by `create_research_workflow`. -/
def researchIter (llm : String → String) (s : ResearchState) : ResearchState :=
  advance_research (research_question llm s)

/-- The research loop as wired by `create_research_workflow`: from the
`research_question` node, run `research_question` then `advance`, loop
back while `should_continue_research` answers `"research_more"`. -/
def runResearchLoop (llm : String → String) (s : ResearchState) : ResearchState :=
  if h : should_continue_research (researchIter llm s) = "research_more" then
    runResearchLoop llm (researchIter llm s)
  else researchIter llm s
termination_by s.research_questions.length - s.current_question_index
decreasing_by
  have hidx : (researchIter llm s).current_question_index = s.current_question_index + 1 := by
    unfold researchIter advance_research research_question
    split <;> rfl
  have hlen : (researchIter llm s).research_questions.length = s.research_questions.length := by
    unfold researchIter advance_research research_question
    split <;> rfl
  have hc : (researchIter llm s).current_question_index < (researchIter llm s).research_questions.length := by
    by_contra hnot
    unfold should_continue_research at h
    rw [if_neg hnot] at h
    exact absurd h (by decide)
  omega

/-- The full research pipeline:
`generate_questions → [research_question → advance]* → synthesize → recommend`;
fallible because the final stage's confidence parse can raise. -/
def invokeResearch (llm : String → String) (s0 : ResearchState) :
    Except String ResearchState :=
  generate_recommendations llm
    (synthesize_findings llm (runResearchLoop llm (generate_research_questions llm s0)))

end ResearchAssistant

namespace MultiStepReasoning

/-- A `reasoning_steps` entry of `multi_step_reasoning.py`:
`{"description": ..., "result": ..., "status": ...}`. -/
structure RStep where
  description : String
  result : String
  status : String
deriving DecidableEq

/-- The state schema `ReasoningState`. -/
structure ReasoningState where
  original_problem : String
  reasoning_steps : List RStep
  current_step : Nat
  final_answer : String
  confidence : String
deriving DecidableEq

/-- The analysis prompt of `analyze_problem`. -/
def analysis_prompt (problem : String) : String :=
  "\n    Analyze this complex problem and break it down into logical reasoning steps:\n    \n    Problem: "
    ++ problem ++
    "\n    \n    Create a step-by-step approach to solve this problem. List 3-5 key steps needed.\n    Format your response as a numbered list where each step is one clear action.\n    \n    Example format:\n    1. Understand the core question\n    2. Identify relevant information\n    3. Apply logical reasoning\n    4. Calculate or deduce the answer\n    5. Verify the solution\n    "

/-- The step-parsing loop of `analyze_problem` (lines 45-56): keep
nonempty stripped lines starting with a digit or `-`; drop the
numbering before the first `.`; each parsed step starts with an empty
result and status `"pending"`. -/
def parseSteps (analysis : String) : List RStep :=
  (pyLines analysis).foldl
    (fun acc rawLine =>
      let line := pyStrip rawLine
      if ¬ line = "" ∧ (PyStr.isDigitChar (line.data.headD ' ') ∨ pyStartsWith "-" line) then
        let step_text :=
          if pyContains "." line then
            pyStrip (String.mk (PyStr.afterFirst '.' line.data))
          else line
        acc ++ [{ description := step_text, result := "", status := "pending" }]
      else acc)
    []

/-- `analyze_problem`: parses the steps and resets the cursor. -/
def analyze_problem (llm : String → String) (s : ReasoningState) : ReasoningState :=
  let analysis := llm (analysis_prompt s.original_problem)
  { s with reasoning_steps := parseSteps analysis, current_step := 0 }

/-- The previous-steps context built by `execute_reasoning_step`
(lines 79-82). -/
def buildPreviousContext (steps : List RStep) : String :=
  steps.enum.foldl
    (fun acc p =>
      if ¬ p.2.result = "" then
        acc ++ "Step " ++ toString (p.1 + 1) ++ " result: " ++ p.2.result ++ "\n"
      else acc)
    ""

/-- The per-step prompt of `execute_reasoning_step`. -/
def step_prompt (problem previous_context description : String) : String :=
  "\n    Original Problem: " ++ problem ++
    "\n    \n    Previous reasoning:\n    " ++ previous_context ++
    "\n    \n    Current step to execute: " ++ description ++
    "\n    \n    Execute this reasoning step. Provide your analysis and findings for this specific step.\n    Be specific and detailed in your reasoning.\n    "

/-- `execute_reasoning_step` (lines 67-105): early-returns when the
cursor is past the step list; otherwise runs the LLM on the current
step and records result and `"completed"` status in place. -/
def execute_reasoning_step (llm : String → String) (s : ReasoningState) : ReasoningState :=
  if h : s.reasoning_steps.length ≤ s.current_step then s
  else
    let current := s.reasoning_steps.get ⟨s.current_step, by omega⟩
    let previous_context := buildPreviousContext (s.reasoning_steps.take s.current_step)
    let result := llm (step_prompt s.original_problem previous_context current.description)
    let updated := { current with result := result, status := "completed" }
    { s with reasoning_steps := s.reasoning_steps.set s.current_step updated }

/-- `advance_step`: `current_step += 1`. -/
def advance_step (s : ReasoningState) : ReasoningState :=
  { s with current_step := s.current_step + 1 }

/-- `should_continue_reasoning` (lines 163-171). -/
def should_continue_reasoning (s : ReasoningState) : String :=
  if s.current_step < s.reasoning_steps.length then "execute_step" else "synthesize"

/-- One pass around the `execute_step -> advance` cycle of the graph
built by `create_reasoning_graph`. -/
def reasonIter (llm : String → String) (s : ReasoningState) : ReasoningState :=
  advance_step (execute_reasoning_step llm s)

/-- Instrumentation of one loop run: the node names entered, in order,
and the number of iterations in which the step body actually ran
(i.e. in which the guard of `execute_reasoning_step` passed). -/
structure LoopLog where
  nodes : List String
  bodyExecs : Nat
deriving DecidableEq

/-- The reasoning loop as wired by `create_reasoning_graph`: from the
`execute_step` node, run `execute_step` then `advance`, loop back while
`should_continue_reasoning` answers `"execute_step"`; instrumented with
a `LoopLog`. -/
def runLoopLog (llm : String → String) (s : ReasoningState) : ReasoningState × LoopLog :=
  let ran : Nat := if s.current_step < s.reasoning_steps.length then 1 else 0
  if h : should_continue_reasoning (reasonIter llm s) = "execute_step" then
    let r := runLoopLog llm (reasonIter llm s)
    (r.1, { nodes := "execute_step" :: "advance" :: r.2.nodes,
            bodyExecs := ran + r.2.bodyExecs })
  else (reasonIter llm s, { nodes := ["execute_step", "advance"], bodyExecs := ran })
termination_by s.reasoning_steps.length - s.current_step
decreasing_by
  have hidx : (reasonIter llm s).current_step = s.current_step + 1 := by
    unfold reasonIter advance_step execute_reasoning_step
    split <;> rfl
  have hlen : (reasonIter llm s).reasoning_steps.length = s.reasoning_steps.length := by
    unfold reasonIter advance_step execute_reasoning_step
    split
    · rfl
    · simp [List.length_set]
  have hc : (reasonIter llm s).current_step < (reasonIter llm s).reasoning_steps.length := by
    by_contra hnot
    unfold should_continue_reasoning at h
    rw [if_neg hnot] at h
    exact absurd h (by decide)
  omega

/-- The chain compilation of `synthesize_answer` (lines 119-122). -/
def buildReasoningChain (steps : List RStep) : String :=
  steps.enum.foldl
    (fun acc p =>
      acc ++ "Step " ++ toString (p.1 + 1) ++ ": " ++ p.2.description ++ "\n" ++
        "Result: " ++ p.2.result ++ "\n\n")
    ""

/-- The synthesis prompt of `synthesize_answer`. -/
def synthesis_prompt (problem reasoning_chain : String) : String :=
  "\n    Original Problem: " ++ problem ++
    "\n    \n    Complete reasoning chain:\n    " ++ reasoning_chain ++
    "\n    \n    Based on all the reasoning steps above, provide:\n    1. A clear, final answer to the original problem\n    2. A brief summary of the key reasoning that led to this answer\n    3. Your confidence level (High/Medium/Low) and why\n    \n    Format:\n    FINAL ANSWER: [Your answer]\n    \n    REASONING SUMMARY: [Brief summary]\n    \n    CONFIDENCE: [High/Medium/Low] - [Explanation]\n    "

/-- `synthesize_answer` (lines 112-161): parse `FINAL ANSWER:` and
`CONFIDENCE:` lines (taking `line.replace(tag, "").strip()`), with the
whole response resp. a fixed string as fallbacks. -/
def synthesize_answer (llm : String → String) (s : ReasoningState) : ReasoningState :=
  let synthesis := llm (synthesis_prompt s.original_problem (buildReasoningChain s.reasoning_steps))
  let parsed := (pyLines synthesis).foldl
    (fun acc line =>
      if pyStartsWith "FINAL ANSWER:" line then
        (pyStrip (pyReplace "FINAL ANSWER:" "" line), acc.2)
      else if pyStartsWith "CONFIDENCE:" line then
        (acc.1, pyStrip (pyReplace "CONFIDENCE:" "" line))
      else acc)
    ("", "")
  { s with final_answer := if ¬ parsed.1 = "" then parsed.1 else synthesis,
           confidence := if ¬ parsed.2 = "" then parsed.2
                         else "Medium - Complete analysis performed" }

/-- The full reasoning pipeline:
`analyze → [execute_step → advance]* → synthesize`. -/
def invokeReasoning (llm : String → String) (s0 : ReasoningState) : ReasoningState :=
  synthesize_answer llm (runLoopLog llm (analyze_problem llm s0)).1

/-- The constant-empty LLM oracle used for the zero-planned-steps run. -/
def llmEmpty : String → String := fun _ => ""

/-- A fresh initial state as built by `main` of
`multi_step_reasoning.py`. -/
def initState (problem : String) : ReasoningState :=
  { original_problem := problem, reasoning_steps := [], current_step := 0,
    final_answer := "", confidence := "" }

end MultiStepReasoning

namespace ConsoleLoops

/-- What one console-loop iteration does with the line read from the
user, before any pipeline work: break out, skip to the next prompt, or
fall through to the pipeline invocation. -/
inductive LoopAction where
  | halt
  | skip
  | invoke
deriving DecidableEq

/-- The sentinel strings shared by every loop:
`user_input.lower() in ['quit', 'exit', 'q']`. -/
def sentinels : List String := ["quit", "exit", "q"]

/-- The loop of `langgraph/chat_with_tools.py` `main` (lines 328-346):
sentinels, then the `tools` help command, then the blank-input skip. -/
def chatWithToolsAction (user_input : String) : LoopAction :=
  if pyLower user_input ∈ sentinels then LoopAction.halt
  else if pyLower user_input = "tools" then LoopAction.skip
  else if pyStrip user_input = "" then LoopAction.skip
  else LoopAction.invoke

/-- The loop of `langgraph/code_reviewer.py` `main` (lines 459-470):
sentinels, then the `example` command (which invokes the pipeline on
sample code), then the blank-input skip. -/
def codeReviewerAction (user_input : String) : LoopAction :=
  if pyLower user_input ∈ sentinels then LoopAction.halt
  else if pyLower user_input = "example" then LoopAction.invoke
  else if pyStrip user_input = "" then LoopAction.skip
  else LoopAction.invoke

/-- The loop shape shared by `conditional_workflow.py`,
`creative_writing.py`, `multi_step_reasoning.py` and
`research_assistant.py`: sentinels, then the blank-input skip. -/
def graphLoopAction (user_input : String) : LoopAction :=
  if pyLower user_input ∈ sentinels then LoopAction.halt
  else if pyStrip user_input = "" then LoopAction.skip
  else LoopAction.invoke

def conditionalWorkflowAction (user_input : String) : LoopAction := graphLoopAction user_input

def creativeWritingAction (user_input : String) : LoopAction := graphLoopAction user_input

def multiStepReasoningAction (user_input : String) : LoopAction := graphLoopAction user_input

def researchAssistantAction (user_input : String) : LoopAction := graphLoopAction user_input

/-- The loop of `langchain/simple_chat.py` `main` (lines 29-31):
sentinels only — any other line, blank included, is passed to the
chain. -/
def simpleChatAction (user_question : String) : LoopAction :=
  if pyLower user_question ∈ sentinels then LoopAction.halt
  else LoopAction.invoke

/-- The loop of `langchain/streaming_chat.py` `main` (lines 34-40):
sentinels only. -/
def streamingChatAction (user_question : String) : LoopAction :=
  if pyLower user_question ∈ sentinels then LoopAction.halt
  else LoopAction.invoke

/-- The loop of `langchain/conversation_memory.py` `main`: sentinels,
then the `memory` command; no blank-input skip. -/
def conversationMemoryAction (user_input : String) : LoopAction :=
  if pyLower user_input ∈ sentinels then LoopAction.halt
  else if pyLower user_input = "memory" then LoopAction.skip
  else LoopAction.invoke

/-- The loop of `langchain/document_qa.py` `main`: sentinels only. -/
def documentQaAction (question : String) : LoopAction :=
  if pyLower question ∈ sentinels then LoopAction.halt
  else LoopAction.invoke

/-- The loop of `langgraph/simple_agent.py` `main`: sentinels only. -/
def simpleAgentAction (user_input : String) : LoopAction :=
  if pyLower user_input ∈ sentinels then LoopAction.halt
  else LoopAction.invoke

end ConsoleLoops

/-! ## Helper lemmas -/

theorem foldl_invariant {α β : Type} (P : β → Prop) (f : β → α → β) (l : List α) (b : β)
    (hb : P b) (hf : ∀ acc a, P acc → P (f acc a)) : P (l.foldl f b) := by
  induction l generalizing b with
  | nil => exact hb
  | cons x xs ih => exact ih (f b x) (hf b x hb)

theorem foldl_fixed {α β : Type} (f : β → α → β) (l : List α) (b : β)
    (hf : ∀ a ∈ l, ∀ acc, f acc a = acc) : l.foldl f b = b := by
  induction l generalizing b with
  | nil => rfl
  | cons x xs ih =>
    rw [List.foldl_cons, hf x (List.mem_cons_self x xs), ih]
    intro a ha acc
    exact hf a (List.mem_cons_of_mem x ha) acc

theorem lookup_dictInsert {α : Type} (k : String) (v : α) (m : List (String × α)) :
    (dictInsert k v m).lookup k = some v := by
  induction m with
  | nil => simp [dictInsert, List.lookup]
  | cons p rest ih =>
    obtain ⟨k', v'⟩ := p
    by_cases h : k' = k
    · simp [dictInsert, h, List.lookup]
    · have hne : (k == k') = false := by
        simp [Ne.symm h]
      simp only [dictInsert, if_neg h, List.lookup, hne, ih]

theorem isPre_append (l m : List Char) : PyStr.isPre l (l ++ m) = true := by
  induction l with
  | nil => rfl
  | cons c cs ih => simp [PyStr.isPre, ih]

namespace ResearchAssistant

theorem research_question_questions (llm : String → String) (u : ResearchState) :
    (research_question llm u).research_questions = u.research_questions := by
  unfold research_question
  split <;> rfl

theorem research_question_index (llm : String → String) (u : ResearchState) :
    (research_question llm u).current_question_index = u.current_question_index := by
  unfold research_question
  split <;> rfl

theorem research_question_findings (llm : String → String) (u : ResearchState) :
    (research_question llm u).findings.length =
      u.findings.length +
        (if u.current_question_index < u.research_questions.length then 1 else 0) := by
  unfold research_question
  split
  · rw [if_neg (by omega)]
    omega
  · rw [if_pos (by omega)]
    simp

theorem research_question_findings_stuck (llm : String → String) (u : ResearchState)
    (h : u.research_questions.length ≤ u.current_question_index) :
    (research_question llm u).findings = u.findings := by
  unfold research_question
  rw [dif_pos h]

theorem researchIter_index (llm : String → String) (u : ResearchState) :
    (researchIter llm u).current_question_index = u.current_question_index + 1 := by
  unfold researchIter advance_research
  simp [research_question_index]

theorem researchIter_questions (llm : String → String) (u : ResearchState) :
    (researchIter llm u).research_questions = u.research_questions := by
  unfold researchIter advance_research
  simp [research_question_questions]

theorem researchIter_findings (llm : String → String) (u : ResearchState) :
    (researchIter llm u).findings.length =
      u.findings.length +
        (if u.current_question_index < u.research_questions.length then 1 else 0) := by
  unfold researchIter advance_research
  simp [research_question_findings]

theorem researchIter_findings_stuck (llm : String → String) (u : ResearchState)
    (h : u.research_questions.length ≤ u.current_question_index) :
    (researchIter llm u).findings = u.findings := by
  unfold researchIter advance_research
  simp [research_question_findings_stuck llm u h]

theorem should_continue_research_cases (u : ResearchState) :
    should_continue_research u =
      (if u.current_question_index < u.research_questions.length then "research_more"
       else "synthesize") := rfl

theorem runResearchLoop_spec (llm : String → String) (s : ResearchState) :
    (runResearchLoop llm s).research_questions = s.research_questions ∧
    (s.research_questions.length ≤ s.current_question_index + 1 →
      (runResearchLoop llm s).current_question_index = s.current_question_index + 1) ∧
    (s.current_question_index + 1 ≤ s.research_questions.length →
      (runResearchLoop llm s).current_question_index = s.research_questions.length) ∧
    (runResearchLoop llm s).findings.length =
      s.findings.length + (s.research_questions.length - s.current_question_index) ∧
    (s.research_questions.length ≤ s.current_question_index →
      (runResearchLoop llm s).findings = s.findings) ∧
    should_continue_research (runResearchLoop llm s) = "synthesize" := by
  induction s using runResearchLoop.induct llm with
  | case1 s h ih =>
    have hcont : (researchIter llm s).current_question_index <
        (researchIter llm s).research_questions.length := by
      by_contra hnot
      rw [should_continue_research_cases, if_neg hnot] at h
      exact absurd h (by decide)
    have hidx := researchIter_index llm s
    have hq := researchIter_questions llm s
    have hql : (researchIter llm s).research_questions.length
        = s.research_questions.length := congrArg List.length hq
    have hf := researchIter_findings llm s
    rw [hql, hidx] at hcont
    unfold runResearchLoop
    rw [dif_pos h]
    obtain ⟨ih1, ih2, ih3, ih4, ih5, ih6⟩ := ih
    refine ⟨by rw [ih1, hq], ?_, ?_, ?_, ?_, ih6⟩
    · intro hle
      omega
    · intro hle
      have hfin := ih3 (by omega)
      rw [hfin, hql]
    · rw [ih4, hf, hql, hidx]
      rw [if_pos (by omega)]
      omega
    · intro hle
      omega
  | case2 s h =>
    have hexit0 : ¬ (researchIter llm s).current_question_index <
        (researchIter llm s).research_questions.length := by
      intro hlt
      rw [should_continue_research_cases, if_pos hlt] at h
      exact absurd rfl h
    have hidx := researchIter_index llm s
    have hq := researchIter_questions llm s
    have hql : (researchIter llm s).research_questions.length
        = s.research_questions.length := congrArg List.length hq
    have hf := researchIter_findings llm s
    have hexit : ¬ s.current_question_index + 1 < s.research_questions.length := by
      rw [hql, hidx] at hexit0
      exact hexit0
    unfold runResearchLoop
    rw [dif_neg h]
    refine ⟨hq, fun _ => hidx, ?_, ?_, ?_, ?_⟩
    · intro hle
      rw [hidx]
      omega
    · rw [hf]
      split <;> omega
    · intro hle
      exact researchIter_findings_stuck llm s hle
    · rw [should_continue_research_cases, if_neg hexit0]

end ResearchAssistant

namespace MultiStepReasoning

theorem execute_step_cursor (llm : String → String) (u : ReasoningState) :
    (execute_reasoning_step llm u).current_step = u.current_step := by
  unfold execute_reasoning_step
  split <;> rfl

theorem execute_step_len (llm : String → String) (u : ReasoningState) :
    (execute_reasoning_step llm u).reasoning_steps.length = u.reasoning_steps.length := by
  unfold execute_reasoning_step
  split
  · rfl
  · simp [List.length_set]

theorem reasonIter_cursor (llm : String → String) (u : ReasoningState) :
    (reasonIter llm u).current_step = u.current_step + 1 := by
  unfold reasonIter advance_step
  simp [execute_step_cursor]

theorem reasonIter_len (llm : String → String) (u : ReasoningState) :
    (reasonIter llm u).reasoning_steps.length = u.reasoning_steps.length := by
  unfold reasonIter advance_step
  simp [execute_step_len]

theorem should_continue_reasoning_cases (u : ReasoningState) :
    should_continue_reasoning u =
      (if u.current_step < u.reasoning_steps.length then "execute_step"
       else "synthesize") := rfl

theorem runLoopLog_spec (llm : String → String) (s : ReasoningState) :
    (s.reasoning_steps.length ≤ s.current_step + 1 →
      (runLoopLog llm s).1.current_step = s.current_step + 1) ∧
    (s.current_step + 1 ≤ s.reasoning_steps.length →
      (runLoopLog llm s).1.current_step = s.reasoning_steps.length) ∧
    (runLoopLog llm s).1.reasoning_steps.length = s.reasoning_steps.length ∧
    (runLoopLog llm s).2.bodyExecs = s.reasoning_steps.length - s.current_step ∧
    (runLoopLog llm s).2.nodes.head? = some "execute_step" ∧
    (s.reasoning_steps.length ≤ s.current_step + 1 →
      (runLoopLog llm s).2.nodes = ["execute_step", "advance"]) ∧
    should_continue_reasoning (runLoopLog llm s).1 = "synthesize" := by
  induction s using runLoopLog.induct llm with
  | case1 s h ih =>
    have hcont : (reasonIter llm s).current_step <
        (reasonIter llm s).reasoning_steps.length := by
      by_contra hnot
      rw [should_continue_reasoning_cases, if_neg hnot] at h
      exact absurd h (by decide)
    have hidx := reasonIter_cursor llm s
    have hlen := reasonIter_len llm s
    rw [hlen, hidx] at hcont
    unfold runLoopLog
    rw [dif_pos h]
    dsimp only
    obtain ⟨ih1, ih2, ih3, ih4, ih5, ih6, ih7⟩ := ih
    refine ⟨?_, ?_, ?_, ?_, rfl, ?_, ih7⟩
    · intro hle
      omega
    · intro hle
      have hfin := ih2 (by omega)
      rw [hfin, hlen]
    · rw [ih3, hlen]
    · rw [ih4, hlen, hidx, if_pos (by omega)]
      omega
    · intro hle
      exact absurd hle (by omega)
  | case2 s h =>
    have hexit0 : ¬ (reasonIter llm s).current_step <
        (reasonIter llm s).reasoning_steps.length := by
      intro hlt
      rw [should_continue_reasoning_cases, if_pos hlt] at h
      exact absurd rfl h
    have hidx := reasonIter_cursor llm s
    have hlen := reasonIter_len llm s
    have hexit : ¬ s.current_step + 1 < s.reasoning_steps.length := by
      rw [hlen, hidx] at hexit0
      exact hexit0
    unfold runLoopLog
    rw [dif_neg h]
    dsimp only
    refine ⟨fun _ => hidx, ?_, hlen, ?_, rfl, fun _ => rfl, ?_⟩
    · intro hle
      rw [hidx]
      omega
    · split <;> omega
    · rw [should_continue_reasoning_cases, if_neg hexit0]

end MultiStepReasoning

theorem foldlM_except_invariant {α β : Type} (P : β → Prop) (f : β → α → Except String β)
    (l : List α) : ∀ (b r : β), P b →
    (∀ acc a c, P acc → f acc a = Except.ok c → P c) →
    l.foldlM f b = Except.ok r → P r := by
  induction l with
  | nil =>
    intro b r hb _ h
    simp only [List.foldlM, pure, Except.pure, Except.ok.injEq] at h
    subst h
    exact hb
  | cons x xs ih =>
    intro b r hb hf h
    simp only [List.foldlM] at h
    cases hfx : f b x with
    | error e =>
      rw [hfx] at h
      simp [Bind.bind, Except.bind] at h
    | ok c =>
      rw [hfx] at h
      simp only [Bind.bind, Except.bind] at h
      exact ih c r (hf b x c hb hfx) hf h

theorem parseReviewScore_le (review : String) (n : Nat)
    (h : CodeReviewer.parseReviewScore review = Except.ok n) : n ≤ 10 := by
  unfold CodeReviewer.parseReviewScore at h
  refine foldlM_except_invariant (fun k => k ≤ 10) _ _ _ _ (by omega) ?_ h
  intro acc a c hacc hstep
  split at hstep
  · split at hstep
    · exact absurd hstep (by simp)
    · injection hstep with h2
      subst h2
      exact hacc
    · injection hstep with h2
      subst h2
      exact min_le_left _ _
  · injection hstep with h2
    subst h2
    exact hacc

theorem parseConfidence_bounds (recs : String) (m : Nat)
    (h : ResearchAssistant.parseConfidence recs = Except.ok m) : 1 ≤ m ∧ m ≤ 10 := by
  unfold ResearchAssistant.parseConfidence at h
  refine foldlM_except_invariant (fun k => 1 ≤ k ∧ k ≤ 10) _ _ _ _ (by omega) ?_ h
  intro acc a c hacc hstep
  split at hstep
  · split at hstep
    · exact absurd hstep (by simp)
    · injection hstep with h2
      subst h2
      exact hacc
    · injection hstep with h2
      subst h2
      exact ⟨le_min (by omega) (Nat.le_max_left 1 _), min_le_left _ _⟩
  · injection hstep with h2
    subst h2
    exact hacc

theorem review_syntax_ok (llm : String → String) (r r2 : CodeReviewer.CodeReviewState)
    (h : CodeReviewer.review_syntax llm r = Except.ok r2) :
    ∃ score, CodeReviewer.parseReviewScore (llm (CodeReviewer.syntax_prompt r.language r.code))
        = Except.ok score ∧
      r2.reviews.lookup "syntax" =
        some { review := llm (CodeReviewer.syntax_prompt r.language r.code),
               score := score, stage := "syntax" } := by
  have hdef : CodeReviewer.review_syntax llm r =
      (CodeReviewer.parseReviewScore (llm (CodeReviewer.syntax_prompt r.language r.code))).map
        (fun score =>
          let entry : CodeReviewer.ReviewEntry :=
            ⟨llm (CodeReviewer.syntax_prompt r.language r.code), score, "syntax"⟩
          { r with reviews := dictInsert "syntax" entry r.reviews }) := rfl
  rw [hdef] at h
  cases hp : CodeReviewer.parseReviewScore (llm (CodeReviewer.syntax_prompt r.language r.code)) with
  | error e =>
    rw [hp] at h
    exact absurd h (by simp [Except.map])
  | ok score =>
    rw [hp] at h
    simp only [Except.map, Except.ok.injEq] at h
    subst h
    exact ⟨score, rfl, lookup_dictInsert _ _ _⟩

theorem generate_recommendations_ok (llm : String → String)
    (t t2 : ResearchAssistant.ResearchState)
    (h : ResearchAssistant.generate_recommendations llm t = Except.ok t2) :
    t2.research_questions = t.research_questions ∧
    1 ≤ t2.confidence_score ∧ t2.confidence_score ≤ 10 := by
  have hdef : ResearchAssistant.generate_recommendations llm t =
      (ResearchAssistant.parseConfidence
          (llm (ResearchAssistant.recommendations_prompt t.research_topic t.summary))).map
        (fun confidence =>
          { t with
              recommendations := llm (ResearchAssistant.recommendations_prompt
                t.research_topic t.summary),
              confidence_score := confidence }) := rfl
  rw [hdef] at h
  cases hp : ResearchAssistant.parseConfidence
      (llm (ResearchAssistant.recommendations_prompt t.research_topic t.summary)) with
  | error e =>
    rw [hp] at h
    exact absurd h (by simp [Except.map])
  | ok c =>
    rw [hp] at h
    simp only [Except.map, Except.ok.injEq] at h
    subst h
    exact ⟨rfl, (parseConfidence_bounds _ c hp).1, (parseConfidence_bounds _ c hp).2⟩

/-- C2: for every classification value, including any value outside the
routing table's fixed vocabulary, `route_by_content_type` returns the
default successor `"handle_other"`; the lookup never fails on a missing
key. -/
theorem routing_default_fallback (s : ConditionalWorkflow.WorkflowState)
    (h : s.content_type ∉
      ["question", "request", "complaint", "compliment", "information", "other"]) :
    ConditionalWorkflow.route_by_content_type s = "handle_other" := by
  simp only [List.mem_cons, List.not_mem_nil, or_false, not_or] at h
  obtain ⟨h1, h2, h3, h4, h5, h6⟩ := h
  have b1 : (s.content_type == "question") = false := beq_eq_false_iff_ne.mpr h1
  have b2 : (s.content_type == "request") = false := beq_eq_false_iff_ne.mpr h2
  have b3 : (s.content_type == "complaint") = false := beq_eq_false_iff_ne.mpr h3
  have b4 : (s.content_type == "compliment") = false := beq_eq_false_iff_ne.mpr h4
  have b5 : (s.content_type == "information") = false := beq_eq_false_iff_ne.mpr h5
  have b6 : (s.content_type == "other") = false := beq_eq_false_iff_ne.mpr h6
  simp [ConditionalWorkflow.route_by_content_type, ConditionalWorkflow.routing_map,
    List.lookup, b1, b2, b3, b4, b5, b6]

/-- C2 witness: the spec's scenario classification `"unknown_type"`
dispatches to `"handle_other"`. -/
theorem routing_default_fallback_witness :
    ConditionalWorkflow.route_by_content_type
      { input_text := "x", content_type := "unknown_type", sentiment := "", complexity := "",
        processing_path := [], results := [], final_output := "" } = "handle_other" :=
  routing_default_fallback _ (by decide)

/-- C3 counterexample: on review text `"SCORE: ²"` the token `"²"`
passes the `str.isdigit` filter but `int()` raises `ValueError`; the
cited stages have no `try/except`, so ` review_syntax` propagates the
exception instead of storing a clamped or default score, and the
confidence parse of `generate_recommendations` fails the same way â
refuting the claim that non-numeric values always yield the in-range
default. -/
theorem parsed_scores_raise_cex :
    CodeReviewer.parseReviewScore "SCORE: ²"
      = Except.error "invalid literal for int() with base 10: ²" ∧
    CodeReviewer.review_syntax (fun _ => "SCORE: ²")
        { code := "", language := "", review_stages := [], current_stage := 0,
          reviews := [], overall_score := 0, final_summary := "" }
      = Except.error "invalid literal for int() with base 10: ²" ∧
    ResearchAssistant.parseConfidence "CONFIDENCE: ²"
      = Except.error "invalid literal for int() with base 10: ²" := by decide

/-- C3 (amended): whenever the cited number-extraction lines do not
raise â every `isdigit`-passing token is a decimal number â the parsed
review score lies in `[0, 10]` (a `Nat`, so `0 ≤` holds by typing) and
the parsed confidence in `[1, 10]`: out-of-range decimal numbers are
clamped into the range, and responses with no parsable score line
yield the in-range defaults 8 resp. 7.  On a non-decimal digit token
such as `"²"`, `int()` raises `ValueError` and the stage propagates
the exception instead of storing any score. -/
theorem parsed_scores_clamped (llm : String → String) (review recs : String)
    (n m : Nat) (r r2 : CodeReviewer.CodeReviewState)
    (t t2 : ResearchAssistant.ResearchState) (entry : CodeReviewer.ReviewEntry)
    (hok : CodeReviewer.parseReviewScore review = Except.ok n)
    (hok2 : ResearchAssistant.parseConfidence recs = Except.ok m)
    (hst : CodeReviewer.review_syntax llm r = Except.ok r2)
    (hentry : r2.reviews.lookup "syntax" = some entry)
    (hrec : ResearchAssistant.generate_recommendations llm t = Except.ok t2) :
    n ≤ 10 ∧ 1 ≤ m ∧ m ≤ 10 ∧ entry.score ≤ 10 ∧
    1 ≤ t2.confidence_score ∧ t2.confidence_score ≤ 10 ∧
    CodeReviewer.parseReviewScore "SCORE: 15 out of 10" = Except.ok 10 ∧
    CodeReviewer.parseReviewScore "SCORE: none found" = Except.ok 8 ∧
    ResearchAssistant.parseConfidence "CONFIDENCE ASSESSMENT: 0" = Except.ok 1 ∧
    ResearchAssistant.parseConfidence "no score at all" = Except.ok 7 := by
  obtain ⟨score, hsc, hlook⟩ := review_syntax_ok llm r r2 hst
  rw [hlook] at hentry
  injection hentry with hentry
  subst hentry
  obtain ⟨hq, hc1, hc2⟩ := generate_recommendations_ok llm t t2 hrec
  exact ⟨parseReviewScore_le review n hok, (parseConfidence_bounds recs m hok2).1,
    (parseConfidence_bounds recs m hok2).2, parseReviewScore_le _ score hsc,
    hc1, hc2, by decide, by decide, by decide, by decide⟩

/-- C3 witness: a clamped score 12 → 10, a parsed confidence 3, a
stored score 9 and a default confidence 7, all on the success path. -/
theorem parsed_scores_clamped_witness :
    (10 : Nat) ≤ 10 ∧ (1 : Nat) ≤ 3 ∧ (3 : Nat) ≤ 10 ∧ (9 : Nat) ≤ 10 ∧
    (1 : Nat) ≤ 7 ∧ (7 : Nat) ≤ 10 ∧
    CodeReviewer.parseReviewScore "SCORE: 15 out of 10" = Except.ok 10 ∧
    CodeReviewer.parseReviewScore "SCORE: none found" = Except.ok 8 ∧
    ResearchAssistant.parseConfidence "CONFIDENCE ASSESSMENT: 0" = Except.ok 1 ∧
    ResearchAssistant.parseConfidence "no score at all" = Except.ok 7 :=
  parsed_scores_clamped (fun _ => "SCORE: 9") "SCORE: 12" "confidence 3" 10 3
    { code := "", language := "", review_stages := [], current_stage := 0,
      reviews := [], overall_score := 0, final_summary := "" }
    { code := "", language := "", review_stages := [], current_stage := 0,
      reviews := [("syntax", ⟨"SCORE: 9", 9, "syntax"⟩)],
      overall_score := 0, final_summary := "" }
    { research_topic := "", research_questions := [], findings := [],
      current_question_index := 0, summary := "", recommendations := "",
      confidence_score := 0 }
    { research_topic := "", research_questions := [], findings := [],
      current_question_index := 0, summary := "", recommendations := "SCORE: 9",
      confidence_score := 7 }
    ⟨"SCORE: 9", 9, "syntax"⟩
    (by decide) (by decide) (by decide) (by decide) (by decide)

/-- C5: when the internal computation of a stateless tool raises
(`eval` failure for the calculator; `int()` conversion failure or a
`randint` failure for the random-number tool), the tool still returns
normally, with the stringified exception embedded in the result text. -/
theorem tool_errors_stringified (pyEval : String → Except String String)
    (randint : Int → Int → Except String Int) (expression e er : String)
    (mnBad mxAny mn2 mx2 : ChatWithTools.PyVal) (a b : Int)
    (h1 : pyEval (ChatWithTools.caretToPow expression) = Except.error e)
    (h2 : ChatWithTools.pyInt mnBad = none)
    (h3 : ChatWithTools.pyInt mn2 = some a) (h4 : ChatWithTools.pyInt mx2 = some b)
    (h5 : randint a b = Except.error er) :
    ChatWithTools.calculator_tool pyEval expression = "Calculator error: " ++ e ∧
    ChatWithTools.random_number_tool randint mnBad mxAny =
      "Random number error: " ++ "invalid literal for int() with base 10" ∧
    ChatWithTools.random_number_tool randint mn2 mx2 = "Random number error: " ++ er := by
  refine ⟨?_, ?_, ?_⟩
  · simp only [ChatWithTools.calculator_tool, h1]
  · simp only [ChatWithTools.random_number_tool, h2]
  · simp only [ChatWithTools.random_number_tool, h3, h4, h5]

/-- C5 witness: a failing division, a non-numeric lower bound, and an
empty `randint` range, all returned as error strings. -/
theorem tool_errors_stringified_witness :
    ChatWithTools.calculator_tool (fun _ => Except.error "division by zero") "1/0" =
      "Calculator error: " ++ "division by zero" ∧
    ChatWithTools.random_number_tool (fun _ _ => Except.error "empty range for randrange()")
        (ChatWithTools.PyVal.str "abc") (ChatWithTools.PyVal.int 100) =
      "Random number error: " ++ "invalid literal for int() with base 10" ∧
    ChatWithTools.random_number_tool (fun _ _ => Except.error "empty range for randrange()")
        (ChatWithTools.PyVal.int 5) (ChatWithTools.PyVal.int 1) =
      "Random number error: " ++ "empty range for randrange()" :=
  tool_errors_stringified (fun _ => Except.error "division by zero")
    (fun _ _ => Except.error "empty range for randrange()") "1/0" "division by zero"
    "empty range for randrange()" (ChatWithTools.PyVal.str "abc")
    (ChatWithTools.PyVal.int 100) (ChatWithTools.PyVal.int 5) (ChatWithTools.PyVal.int 1)
    5 1 rfl (by decide) rfl rfl rfl

/-- C6: the spec scenario — user input `"calculate 5+3"`, with the
extraction oracle answering `"5+3"`, makes the calculator branch of
`execute_tool` store a result string containing `"8"`. -/
theorem calculator_scenario :
    ChatWithTools.calculator_tool ChatWithTools.pyEvalArithS "5+3" =
      "Calculator result: 5+3 = 8" ∧
    pyContains "8" (ChatWithTools.calculator_tool ChatWithTools.pyEvalArithS "5+3") = true ∧
    (ChatWithTools.execute_tool (fun _ => "5+3") ChatWithTools.pyEvalArithS
        (fun a _ => Except.ok a) "2024-01-01 00:00:00"
        { messages := [], available_tools := ChatWithTools.toolKeys, tool_results := [],
          conversation_context := "", needs_tool := true, selected_tool := "calculator",
          user_input := "calculate 5+3", response := "" }).tool_results.lookup "calculator"
      = some "Calculator result: 5+3 = 8" := by decide

/-- C7: when the expected line prefixes are absent from the model
response, the extracting stages never fail and write the hard-coded
defaults: content type `"other"`, sentiment `"neutral"`, complexity
`"moderate"` in `analyze_content`, and `(False, "none")` in
`analyze_user_input`. -/
theorem parse_failure_defaults (analysis toolAnalysis : String) (llm : String → String)
    (s : ConditionalWorkflow.WorkflowState)
    (h1 : ∀ line ∈ pyLines analysis,
      pyStartsWith "Content Type:" line = false ∧ pyStartsWith "Sentiment:" line = false ∧
      pyStartsWith "Complexity:" line = false)
    (h2 : ∀ line ∈ pyLines toolAnalysis,
      pyStartsWith "NEEDS_TOOL:" line = false ∧ pyStartsWith "TOOL_NAME:" line = false)
    (h3 : llm (ConditionalWorkflow.analysis_prompt s.input_text) = analysis) :
    ConditionalWorkflow.parseContentAnalysis analysis = ("other", "neutral", "moderate") ∧
    ChatWithTools.parseToolAnalysis toolAnalysis = (false, "none") ∧
    (ConditionalWorkflow.analyze_content llm s).content_type = "other" ∧
    (ConditionalWorkflow.analyze_content llm s).sentiment = "neutral" ∧
    (ConditionalWorkflow.analyze_content llm s).complexity = "moderate" := by
  have hp : ConditionalWorkflow.parseContentAnalysis analysis =
      ("other", "neutral", "moderate") := by
    unfold ConditionalWorkflow.parseContentAnalysis
    apply foldl_fixed
    intro line hline acc
    obtain ⟨ha, hb, hc⟩ := h1 line hline
    simp [ha, hb, hc]
  have htl : ChatWithTools.parseToolAnalysis toolAnalysis = (false, "none") := by
    unfold ChatWithTools.parseToolAnalysis
    apply foldl_fixed
    intro line hline acc
    obtain ⟨ha, hb⟩ := h2 line hline
    simp [ha, hb]
  refine ⟨hp, htl, ?_, ?_, ?_⟩ <;>
  · unfold ConditionalWorkflow.analyze_content
    dsimp only
    rw [h3, hp]

/-- C7 witness: a response with none of the expected prefixes. -/
theorem parse_failure_defaults_witness :
    ConditionalWorkflow.parseContentAnalysis "hello there" = ("other", "neutral", "moderate") ∧
    ChatWithTools.parseToolAnalysis "plain chat" = (false, "none") ∧
    (ConditionalWorkflow.analyze_content (fun _ => "hello there")
        { input_text := "hi", content_type := "", sentiment := "", complexity := "",
          processing_path := [], results := [], final_output := "" }).content_type = "other" ∧
    (ConditionalWorkflow.analyze_content (fun _ => "hello there")
        { input_text := "hi", content_type := "", sentiment := "", complexity := "",
          processing_path := [], results := [], final_output := "" }).sentiment = "neutral" ∧
    (ConditionalWorkflow.analyze_content (fun _ => "hello there")
        { input_text := "hi", content_type := "", sentiment := "", complexity := "",
          processing_path := [], results := [], final_output := "" }).complexity = "moderate" :=
  parse_failure_defaults "hello there" "plain chat" (fun _ => "hello there")
    { input_text := "hi", content_type := "", sentiment := "", complexity := "",
      processing_path := [], results := [], final_output := "" }
    (by decide) (by decide) rfl

/-- C8: stage parsing is deterministic and factors through the raw
response text: two runs whose text-generation responses coincide parse
identical fields (content type, sentiment, complexity, and the stored
syntax review entry with its score). -/
theorem stage_parsing_deterministic (llm1 llm2 lm1 lm2 : String → String)
    (s1 s2 : ConditionalWorkflow.WorkflowState) (r1 r2 : CodeReviewer.CodeReviewState)
    (hA : llm1 (ConditionalWorkflow.analysis_prompt s1.input_text)
        = llm2 (ConditionalWorkflow.analysis_prompt s2.input_text))
    (hR : lm1 (CodeReviewer.syntax_prompt r1.language r1.code)
        = lm2 (CodeReviewer.syntax_prompt r2.language r2.code)) :
    (ConditionalWorkflow.analyze_content llm1 s1).content_type
      = (ConditionalWorkflow.analyze_content llm2 s2).content_type ∧
    (ConditionalWorkflow.analyze_content llm1 s1).sentiment
      = (ConditionalWorkflow.analyze_content llm2 s2).sentiment ∧
    (ConditionalWorkflow.analyze_content llm1 s1).complexity
      = (ConditionalWorkflow.analyze_content llm2 s2).complexity ∧
    Except.map (fun st => st.reviews.lookup "syntax") ( CodeReviewer.review_syntax lm1 r1)
      = Except.map (fun st => st.reviews.lookup "syntax")
          ( CodeReviewer.review_syntax lm2 r2) := by
  unfold ConditionalWorkflow.analyze_content CodeReviewer.review_syntax
  dsimp only
  rw [hA, hR]
  refine ⟨rfl, rfl, rfl, ?_⟩
  cases CodeReviewer.parseReviewScore
      (lm2 (CodeReviewer.syntax_prompt r2.language r2.code)) with
  | error e => rfl
  | ok score => simp [Except.map, lookup_dictInsert]

/-- C8 witness: a fixed canned response fed twice through each parsing
stage. -/
theorem stage_parsing_deterministic_witness :
    (ConditionalWorkflow.analyze_content (fun _ => "Content Type: question")
        { input_text := "q", content_type := "", sentiment := "", complexity := "",
          processing_path := [], results := [], final_output := "" }).content_type
      = (ConditionalWorkflow.analyze_content (fun _ => "Content Type: question")
        { input_text := "q", content_type := "", sentiment := "", complexity := "",
          processing_path := [], results := [], final_output := "" }).content_type ∧
    (ConditionalWorkflow.analyze_content (fun _ => "Content Type: question")
        { input_text := "q", content_type := "", sentiment := "", complexity := "",
          processing_path := [], results := [], final_output := "" }).sentiment
      = (ConditionalWorkflow.analyze_content (fun _ => "Content Type: question")
        { input_text := "q", content_type := "", sentiment := "", complexity := "",
          processing_path := [], results := [], final_output := "" }).sentiment ∧
    (ConditionalWorkflow.analyze_content (fun _ => "Content Type: question")
        { input_text := "q", content_type := "", sentiment := "", complexity := "",
          processing_path := [], results := [], final_output := "" }).complexity
      = (ConditionalWorkflow.analyze_content (fun _ => "Content Type: question")
        { input_text := "q", content_type := "", sentiment := "", complexity := "",
          processing_path := [], results := [], final_output := "" }).complexity ∧
    Except.map (fun st => st.reviews.lookup "syntax")
        ( CodeReviewer.review_syntax (fun _ => "SCORE: 9")
          { code := "x", language := "python", review_stages := [], current_stage := 0,
            reviews := [], overall_score := 0, final_summary := "" })
      = Except.map (fun st => st.reviews.lookup "syntax")
          ( CodeReviewer.review_syntax (fun _ => "SCORE: 9")
            { code := "x", language := "python", review_stages := [], current_stage := 0,
              reviews := [], overall_score := 0, final_summary := "" }) :=
  stage_parsing_deterministic (fun _ => "Content Type: question")
    (fun _ => "Content Type: question") (fun _ => "SCORE: 9") (fun _ => "SCORE: 9")
    { input_text := "q", content_type := "", sentiment := "", complexity := "",
      processing_path := [], results := [], final_output := "" }
    { input_text := "q", content_type := "", sentiment := "", complexity := "",
      processing_path := [], results := [], final_output := "" }
    { code := "x", language := "python", review_stages := [], current_stage := 0,
      reviews := [], overall_score := 0, final_summary := "" }
    { code := "x", language := "python", review_stages := [], current_stage := 0,
      reviews := [], overall_score := 0, final_summary := "" }
    rfl rfl

theorem reasonIter_iterate (llm : String → String) (k : Nat)
    (u : MultiStepReasoning.ReasoningState) :
    ((MultiStepReasoning.reasonIter llm)^[k] u).current_step = u.current_step + k ∧
    ((MultiStepReasoning.reasonIter llm)^[k] u).reasoning_steps.length
      = u.reasoning_steps.length := by
  induction k with
  | zero => simp
  | succ n ih =>
    rw [Function.iterate_succ_apply']
    refine ⟨?_, ?_⟩
    · rw [MultiStepReasoning.reasonIter_cursor, ih.1]
      omega
    · rw [MultiStepReasoning.reasonIter_len, ih.2]

theorem researchIter_iterate (llm : String → String) (k : Nat)
    (v : ResearchAssistant.ResearchState) :
    ((ResearchAssistant.researchIter llm)^[k] v).current_question_index
      = v.current_question_index + k ∧
    ((ResearchAssistant.researchIter llm)^[k] v).research_questions.length
      = v.research_questions.length := by
  induction k with
  | zero => simp
  | succ n ih =>
    rw [Function.iterate_succ_apply']
    refine ⟨?_, ?_⟩
    · rw [ResearchAssistant.researchIter_index, ih.1]
      omega
    · rw [congrArg List.length (ResearchAssistant.researchIter_questions llm _), ih.2]

/-- C4: both iterative pipelines terminate — one `execute/research →
advance` pass increments the cursor by exactly 1 and leaves the planned
list's length unchanged, so after finitely many passes the exit
predicate (cursor ≥ list length) holds and control routes to the
synthesis stage. -/
theorem iterative_loops_terminate (llm : String → String)
    (u : MultiStepReasoning.ReasoningState) (v : ResearchAssistant.ResearchState) :
    (MultiStepReasoning.reasonIter llm u).current_step = u.current_step + 1 ∧
    (MultiStepReasoning.reasonIter llm u).reasoning_steps.length
      = u.reasoning_steps.length ∧
    (ResearchAssistant.researchIter llm v).current_question_index
      = v.current_question_index + 1 ∧
    (ResearchAssistant.researchIter llm v).research_questions.length
      = v.research_questions.length ∧
    (∃ k, MultiStepReasoning.should_continue_reasoning
        ((MultiStepReasoning.reasonIter llm)^[k] u) = "synthesize") ∧
    (∃ k, ResearchAssistant.should_continue_research
        ((ResearchAssistant.researchIter llm)^[k] v) = "synthesize") := by
  refine ⟨MultiStepReasoning.reasonIter_cursor llm u, MultiStepReasoning.reasonIter_len llm u,
    ResearchAssistant.researchIter_index llm v,
    congrArg List.length (ResearchAssistant.researchIter_questions llm v), ?_, ?_⟩
  · refine ⟨u.reasoning_steps.length, ?_⟩
    obtain ⟨hc, hl⟩ := reasonIter_iterate llm u.reasoning_steps.length u
    rw [MultiStepReasoning.should_continue_reasoning_cases, if_neg (by omega)]
  · refine ⟨v.research_questions.length, ?_⟩
    obtain ⟨hc, hl⟩ := researchIter_iterate llm v.research_questions.length v
    rw [ResearchAssistant.should_continue_research_cases, if_neg (by omega)]

/-- C1 counterexample: with an LLM response that plans zero steps, the
reasoning loop does NOT exit with cursor equal to the planned-step
count (it exits with cursor 1 ≠ 0), and it does not route directly to
the synthesis stage: the `execute_step` and `advance` nodes are entered
once before `should_continue_reasoning` is first consulted, because
`create_reasoning_graph` wires unconditional edges
`analyze → execute_step → advance`. -/
theorem iterative_loop_zero_steps_cex :
    (MultiStepReasoning.analyze_problem MultiStepReasoning.llmEmpty
        (MultiStepReasoning.initState "p")).reasoning_steps.length = 0 ∧
    ¬ (MultiStepReasoning.runLoopLog MultiStepReasoning.llmEmpty
        (MultiStepReasoning.analyze_problem MultiStepReasoning.llmEmpty
          (MultiStepReasoning.initState "p"))).1.current_step = 0 ∧
    (MultiStepReasoning.runLoopLog MultiStepReasoning.llmEmpty
        (MultiStepReasoning.analyze_problem MultiStepReasoning.llmEmpty
          (MultiStepReasoning.initState "p"))).2.nodes = ["execute_step", "advance"] := by
  have h0 : (MultiStepReasoning.analyze_problem MultiStepReasoning.llmEmpty
      (MultiStepReasoning.initState "p")).reasoning_steps.length = 0 := by decide
  have hc : (MultiStepReasoning.analyze_problem MultiStepReasoning.llmEmpty
      (MultiStepReasoning.initState "p")).current_step = 0 := by decide
  obtain ⟨r1, _, _, _, _, r6, _⟩ := MultiStepReasoning.runLoopLog_spec
    MultiStepReasoning.llmEmpty
    (MultiStepReasoning.analyze_problem MultiStepReasoning.llmEmpty
      (MultiStepReasoning.initState "p"))
  refine ⟨h0, ?_, r6 (by omega)⟩
  rw [r1 (by omega)]
  omega

/-- C1 (amended): entering the loop with cursor 0, the cursor increases
by exactly 1 each iteration; with `N ≥ 1` planned steps the loop exits
exactly when cursor = N after N executions of the step body; with
`N = 0` the step and advance nodes are still entered once — the step
body is guarded into a no-op (zero body executions; the research
pipeline's findings stay unchanged) — and the loop exits with cursor 1,
not 0; in every case control then passes to the synthesis stage. -/
theorem iterative_loop_cursor_amended (llm : String → String)
    (s u : MultiStepReasoning.ReasoningState) (t : ResearchAssistant.ResearchState)
    (hs : s.current_step = 0) (ht : t.current_question_index = 0) :
    (MultiStepReasoning.reasonIter llm u).current_step = u.current_step + 1 ∧
    (1 ≤ s.reasoning_steps.length →
      (MultiStepReasoning.runLoopLog llm s).1.current_step = s.reasoning_steps.length ∧
      (MultiStepReasoning.runLoopLog llm s).2.bodyExecs = s.reasoning_steps.length) ∧
    (s.reasoning_steps.length = 0 →
      (MultiStepReasoning.runLoopLog llm s).1.current_step = 1 ∧
      (MultiStepReasoning.runLoopLog llm s).2.bodyExecs = 0 ∧
      (MultiStepReasoning.runLoopLog llm s).2.nodes = ["execute_step", "advance"]) ∧
    MultiStepReasoning.should_continue_reasoning
      (MultiStepReasoning.runLoopLog llm s).1 = "synthesize" ∧
    (1 ≤ t.research_questions.length →
      (ResearchAssistant.runResearchLoop llm t).current_question_index
        = t.research_questions.length ∧
      (ResearchAssistant.runResearchLoop llm t).findings.length
        = t.findings.length + t.research_questions.length) ∧
    (t.research_questions.length = 0 →
      (ResearchAssistant.runResearchLoop llm t).current_question_index = 1 ∧
      (ResearchAssistant.runResearchLoop llm t).findings = t.findings) ∧
    ResearchAssistant.should_continue_research
      (ResearchAssistant.runResearchLoop llm t) = "synthesize" := by
  obtain ⟨r1, r2, r3, r4, r5, r6, r7⟩ := MultiStepReasoning.runLoopLog_spec llm s
  obtain ⟨q1, q2, q3, q4, q5, q6⟩ := ResearchAssistant.runResearchLoop_spec llm t
  refine ⟨MultiStepReasoning.reasonIter_cursor llm u, ?_, ?_, r7, ?_, ?_, q6⟩
  · intro hN
    refine ⟨r2 (by omega), by omega⟩
  · intro hN
    refine ⟨?_, by omega, r6 (by omega)⟩
    have hfin := r1 (by omega)
    omega
  · intro hM
    refine ⟨q3 (by omega), by omega⟩
  · intro hM
    refine ⟨?_, q5 (by omega)⟩
    have hfin := q2 (by omega)
    omega

/-- C1 witness: a run with two planned steps exits with cursor 2 after
two step-body executions. -/
theorem iterative_loop_cursor_amended_witness :
    (MultiStepReasoning.runLoopLog (fun _ => "")
        { original_problem := "p",
          reasoning_steps := [{ description := "alpha", result := "", status := "pending" },
                              { description := "beta", result := "", status := "pending" }],
          current_step := 0, final_answer := "", confidence := "" }).1.current_step = 2 ∧
    (MultiStepReasoning.runLoopLog (fun _ => "")
        { original_problem := "p",
          reasoning_steps := [{ description := "alpha", result := "", status := "pending" },
                              { description := "beta", result := "", status := "pending" }],
          current_step := 0, final_answer := "", confidence := "" }).2.bodyExecs = 2 :=
  (iterative_loop_cursor_amended (fun _ => "")
    { original_problem := "p",
      reasoning_steps := [{ description := "alpha", result := "", status := "pending" },
                          { description := "beta", result := "", status := "pending" }],
      current_step := 0, final_answer := "", confidence := "" }
    { original_problem := "p", reasoning_steps := [], current_step := 0,
      final_answer := "", confidence := "" }
    { research_topic := "", research_questions := [], findings := [],
      current_question_index := 0, summary := "", recommendations := "",
      confidence_score := 0 }
    rfl rfl).2.1 (by decide)

/-- C9 counterexample: blank input is not skipped by every console
loop — `simple_chat.py` and `streaming_chat.py` have no blank-input
guard, so a blank line falls through to the pipeline invocation. -/
theorem blank_input_invokes_cex :
    ConsoleLoops.simpleChatAction "" = ConsoleLoops.LoopAction.invoke ∧
    ConsoleLoops.streamingChatAction "   " = ConsoleLoops.LoopAction.invoke := by decide

/-- C9 (amended): a case-insensitive sentinel (`quit`/`exit`/`q`)
terminates every console loop; a blank input is skipped without a
pipeline invocation by the six langgraph pipeline loops, while the
langchain loops (`simple_chat`, `streaming_chat`,
`conversation_memory`, `document_qa`) and `simple_agent` invoke the
pipeline even on blank input. -/
theorem console_loop_amended (s b : String)
    (hs : pyLower s ∈ ConsoleLoops.sentinels)
    (hb1 : pyLower b ∉ ConsoleLoops.sentinels) (hb2 : pyStrip b = "")
    (hb3 : ¬ pyLower b = "tools") (hb4 : ¬ pyLower b = "example")
    (hb5 : ¬ pyLower b = "memory") :
    (ConsoleLoops.chatWithToolsAction s = ConsoleLoops.LoopAction.halt ∧
     ConsoleLoops.codeReviewerAction s = ConsoleLoops.LoopAction.halt ∧
     ConsoleLoops.conditionalWorkflowAction s = ConsoleLoops.LoopAction.halt ∧
     ConsoleLoops.creativeWritingAction s = ConsoleLoops.LoopAction.halt ∧
     ConsoleLoops.multiStepReasoningAction s = ConsoleLoops.LoopAction.halt ∧
     ConsoleLoops.researchAssistantAction s = ConsoleLoops.LoopAction.halt ∧
     ConsoleLoops.simpleChatAction s = ConsoleLoops.LoopAction.halt ∧
     ConsoleLoops.streamingChatAction s = ConsoleLoops.LoopAction.halt ∧
     ConsoleLoops.conversationMemoryAction s = ConsoleLoops.LoopAction.halt ∧
     ConsoleLoops.documentQaAction s = ConsoleLoops.LoopAction.halt ∧
     ConsoleLoops.simpleAgentAction s = ConsoleLoops.LoopAction.halt) ∧
    (ConsoleLoops.chatWithToolsAction b = ConsoleLoops.LoopAction.skip ∧
     ConsoleLoops.codeReviewerAction b = ConsoleLoops.LoopAction.skip ∧
     ConsoleLoops.conditionalWorkflowAction b = ConsoleLoops.LoopAction.skip ∧
     ConsoleLoops.creativeWritingAction b = ConsoleLoops.LoopAction.skip ∧
     ConsoleLoops.multiStepReasoningAction b = ConsoleLoops.LoopAction.skip ∧
     ConsoleLoops.researchAssistantAction b = ConsoleLoops.LoopAction.skip) ∧
    (ConsoleLoops.simpleChatAction b = ConsoleLoops.LoopAction.invoke ∧
     ConsoleLoops.streamingChatAction b = ConsoleLoops.LoopAction.invoke ∧
     ConsoleLoops.conversationMemoryAction b = ConsoleLoops.LoopAction.invoke ∧
     ConsoleLoops.documentQaAction b = ConsoleLoops.LoopAction.invoke ∧
     ConsoleLoops.simpleAgentAction b = ConsoleLoops.LoopAction.invoke) := by
  simp [ConsoleLoops.chatWithToolsAction, ConsoleLoops.codeReviewerAction,
    ConsoleLoops.conditionalWorkflowAction, ConsoleLoops.creativeWritingAction,
    ConsoleLoops.multiStepReasoningAction, ConsoleLoops.researchAssistantAction,
    ConsoleLoops.graphLoopAction, ConsoleLoops.simpleChatAction,
    ConsoleLoops.streamingChatAction, ConsoleLoops.conversationMemoryAction,
    ConsoleLoops.documentQaAction, ConsoleLoops.simpleAgentAction,
    hs, hb1, hb2, hb3, hb4, hb5]

/-- C9 witness: sentinel `"Quit"` halts, blank input is skipped by the
tools loop and invoked by the plain chat loop. -/
theorem console_loop_amended_witness :
    ConsoleLoops.chatWithToolsAction "Quit" = ConsoleLoops.LoopAction.halt ∧
    ConsoleLoops.chatWithToolsAction "" = ConsoleLoops.LoopAction.skip ∧
    ConsoleLoops.simpleChatAction "" = ConsoleLoops.LoopAction.invoke :=
  ⟨(console_loop_amended "Quit" "" (by decide) (by decide) (by decide) (by decide)
      (by decide) (by decide)).1.1,
   (console_loop_amended "Quit" "" (by decide) (by decide) (by decide) (by decide)
      (by decide) (by decide)).2.1.1,
   (console_loop_amended "Quit" "" (by decide) (by decide) (by decide) (by decide)
      (by decide) (by decide)).2.2.1⟩

/-- C10: the question-planning stage stores at most 5 research
questions (`questions[:5]`), and no later stage — research, advance,
the whole research loop, synthesize, recommend (on its success path;
its confidence parse can only raise, never touch the list) — modifies
the list, so whenever the full run completes it ends with at most 5
questions. -/
theorem research_questions_bounded (llm : String → String)
    (s0 u : ResearchAssistant.ResearchState) :
    (ResearchAssistant.generate_research_questions llm s0).research_questions.length ≤ 5 ∧
    (ResearchAssistant.research_question llm u).research_questions = u.research_questions ∧
    (ResearchAssistant.advance_research u).research_questions = u.research_questions ∧
    (ResearchAssistant.synthesize_findings llm u).research_questions = u.research_questions ∧
    (match ResearchAssistant.generate_recommendations llm u with
     | Except.ok v => v.research_questions = u.research_questions
     | Except.error _ => True) ∧
    (ResearchAssistant.runResearchLoop llm u).research_questions = u.research_questions ∧
    (match ResearchAssistant.invokeResearch llm s0 with
     | Except.ok fin => fin.research_questions.length ≤ 5
     | Except.error _ => True) := by
  have hgen : (ResearchAssistant.generate_research_questions llm s0).research_questions.length
      ≤ 5 := by
    unfold ResearchAssistant.generate_research_questions
    dsimp only
    rw [List.length_take]
    exact min_le_left _ _
  have hsyn : ∀ x : ResearchAssistant.ResearchState,
      (ResearchAssistant.synthesize_findings llm x).research_questions
        = x.research_questions := fun _ => rfl
  refine ⟨hgen, ResearchAssistant.research_question_questions llm u, rfl, hsyn u, ?_,
    (ResearchAssistant.runResearchLoop_spec llm u).1, ?_⟩
  · cases hv : ResearchAssistant.generate_recommendations llm u with
    | error e => trivial
    | ok v => exact (generate_recommendations_ok llm u v hv).1
  · cases hfin : ResearchAssistant.invokeResearch llm s0 with
    | error e => trivial
    | ok fin =>
      show fin.research_questions.length ≤ 5
      unfold ResearchAssistant.invokeResearch at hfin
      have h1 := (generate_recommendations_ok llm _ fin hfin).1
      rw [h1, hsyn, (ResearchAssistant.runResearchLoop_spec llm _).1]
      exact hgen
